import Mathlib

/-
Verification of the task-execution orchestrator of the cloud-agent
repository (app/services/agent_execution.py, app/services/sandbox.py,
app/services/task.py, app/models/task.py, app/tasks/agent_execution.py).

The Python services are shallowly embedded as pure Lean functions.  All
interaction with the external world (the sandbox provider, the git remote,
the agent process, the local filesystem) is captured by explicit
environment records whose fields hold the outcome of each external call
site, in source order.  Machine state that the services mutate (the task
registry, the wall clock used for updated_at) is passed explicitly.
Python exceptions are modelled with Except; Python call semantics for
keyword arguments (a call passing a keyword a function does not declare
raises TypeError before the body runs) are modelled explicitly, because
app/services/agent_execution.py passes a branch_name keyword that
app/services/task.py:update_task_status does not declare.
-/

namespace CloudAgent

/-- Python exceptions that the embedded services can raise. -/
inductive PyErr where
  | notFound (msg : String)
  | typeError (msg : String)
  | runtimeError (msg : String)
  | unexpected (msg : String)
deriving Repr, DecidableEq

/-- The Task record, from app/models/task.py (fields id, created_at,
updated_at, prompt, status, result, sandbox_id, session_id,
parent_task_id, repository_url).  UUIDs are modelled as Nat, timestamps
as Nat.  The field branch_name is **Modelled from the spec:** the Task
data model in spec section 3 includes branch_name, and both
app/services/agent_execution.py (line 125 reads task.branch_name) and
app/api/tasks.py (request and response models) require the attribute,
but the copy of app/models/task.py under src/ does not declare it; the
attribute is taken to exist on the record so that the orchestrator code
that reads it can be embedded at all. -/
structure Task where
  id : Nat
  created_at : Nat
  updated_at : Nat
  prompt : String
  status : String
  result : Option String
  sandbox_id : Option String
  session_id : Option String
  parent_task_id : Option Nat
  repository_url : String
  branch_name : Option String
deriving Repr, DecidableEq

/-- The persistent task registry (the tasks table), as a list of rows. -/
abbrev Registry : Type := List Task

/-- Row lookup by primary key (TaskService.get_task_by_id's select). -/
def findTask (reg : Registry) (tid : Nat) : Option Task :=
  List.find? (fun t => t.id == tid) reg

/-- Commit of a single-row update back to the store. -/
def replaceTask (reg : Registry) (tid : Nat) (u : Task) : Registry :=
  List.map (fun t => if t.id == tid then u else t) reg

/-- TaskService.update_task_status from app/services/task.py lines
89-117: look the task up (NotFoundError when absent), always overwrite
status and updated_at, overwrite result / sandbox_id / session_id only
when the corresponding argument is not None, and commit the row.
Returns the updated registry together with the refreshed task. -/
def update_task_status (reg : Registry) (now : Nat) (task_id : Nat) (status : String)
    (result : Option String) (sandbox_id : Option String) (session_id : Option String) :
    Except PyErr (Registry × Task) :=
  match findTask reg task_id with
  | none => .error (.notFound ("Task with id " ++ toString task_id ++ " not found"))
  | some task =>
    let task' : Task :=
      { task with
        status := status
        updated_at := now
        result := match result with | some r => some r | none => task.result
        sandbox_id := match sandbox_id with | some s => some s | none => task.sandbox_id
        session_id := match session_id with | some s => some s | none => task.session_id }
    .ok (replaceTask reg task_id task', task')

/-- The keyword parameters update_task_status declares
(app/services/task.py lines 90-96): result, sandbox_id, session_id. -/
def updateKwargNames : List String := ["result", "sandbox_id", "session_id"]

/-- Value of a keyword argument at a Python call site; absence and an
explicit None both yield none, matching the None defaults. -/
def kwargLookup (kwargs : List (String × Option String)) (name : String) : Option String :=
  match List.find? (fun kv => kv.fst == name) kwargs with
  | some kv => kv.snd
  | none => none

/-- A Python call of TaskService.update_task_status with keyword
arguments.  Python raises TypeError before entering the callee when a
keyword is passed that the function does not declare; otherwise the
declared parameters take the passed values (defaulting to None). -/
def call_update_task_status (reg : Registry) (now : Nat) (task_id : Nat) (status : String)
    (kwargs : List (String × Option String)) : Except PyErr (Registry × Task) :=
  if List.all kwargs (fun kv => updateKwargNames.contains kv.fst) then
    update_task_status reg now task_id status (kwargLookup kwargs "result")
      (kwargLookup kwargs "sandbox_id") (kwargLookup kwargs "session_id")
  else
    .error (.typeError "update_task_status() got an unexpected keyword argument")

/-- Python whitespace characters relevant to the modelled data. -/
def isSpaceChar (c : Char) : Bool :=
  c == ' ' || c == '\n' || c == '\t' || c == '\r'

/-- Drop leading whitespace characters. -/
def dropSpace : List Char → List Char
  | [] => []
  | c :: cs => if isSpaceChar c then dropSpace cs else c :: cs

/-- Python str.strip(): remove leading and trailing whitespace.  Defined
by structural recursion (unlike core String.trim) so that concrete runs
of the embedded services reduce definitionally. -/
def pyStrip (s : String) : String :=
  ⟨List.reverse (dropSpace (List.reverse (dropSpace s.toList)))⟩

/-- Split a character list on a separator character; Python
str.split(sep) semantics (the empty string yields one empty field). -/
def splitOnChar (sep : Char) : List Char → List (List Char)
  | [] => [[]]
  | c :: cs =>
    let rest := splitOnChar sep cs
    if c == sep then [] :: rest
    else
      match rest with
      | r :: rs => (c :: r) :: rs
      | [] => [[c]]

/-- Python s.split(newline). -/
def pySplitNewlines (s : String) : List String :=
  List.map (fun l => String.mk l) (splitOnChar '\n' s.toList)

/-- Python s.split(slash), last component: the basename of a path. -/
def pyBasename (s : String) : String :=
  match List.getLast? (splitOnChar '/' s.toList) with
  | some l => String.mk l
  | none => s

/-- Strip pat from the front of s when it is a leading run, else none. -/
def dropRun (pat s : List Char) : Option (List Char) :=
  match pat, s with
  | [], rest => some rest
  | _ :: _, [] => none
  | p :: ps, c :: cs => if c == p then dropRun ps cs else none

/-- Fuel-driven replacement of every occurrence of pat by sub; the fuel
makes the recursion structural so concrete runs reduce. -/
def replaceFuel (pat sub : List Char) : Nat → List Char → List Char
  | 0, s => s
  | _ + 1, [] => []
  | fuel + 1, c :: cs =>
    match dropRun pat (c :: cs) with
    | some rest => sub ++ replaceFuel pat sub fuel rest
    | none => c :: replaceFuel pat sub fuel cs

/-- Python s.replace(pat, sub). -/
def pyReplace (s pat sub : String) : String :=
  String.mk (replaceFuel pat.toList sub.toList (s.toList.length + 1) s.toList)

/-- The value SandboxService.run_command yields when the command ran to
an exit code: app/services/sandbox.py lines 95-110 catch
CommandExitException and coerce it to a result object, so a non-zero
exit code is a normal return value, never an exception. -/
structure CommandResult where
  exit_code : Int
  stdout : String
  stderr : String
deriving Repr, DecidableEq

/-- Outcome of one SandboxService.run_command call site: a result object
(any exit code), a TimeoutException (not caught by run_command, which
only catches CommandExitException), or another provider exception. -/
inductive CmdOutcome where
  | ok (r : CommandResult)
  | timeout
  | exn (msg : String)
deriving Repr, DecidableEq

/-- Environment for AgentExecutionService.setup_sandbox_environment: the
result of each of its six run_command call sites, in source order. -/
structure SetupEnv where
  git_config_email : CommandResult
  git_config_name : CommandResult
  sdk_install : CommandResult
  cred_helper : CommandResult
  toolkit_clone : CommandResult
  toolkit_install : CommandResult
deriving Repr, DecidableEq

/-- What one call of setup_sandbox_environment did: which run_command
call sites it executed (labels in source order) and whether it returned
normally or raised. -/
structure SetupRun where
  commands : List String
  outcome : Except PyErr Unit

/-- AgentExecutionService.setup_sandbox_environment from
app/services/agent_execution.py lines 15-76: run both git config
commands (exit codes unchecked), install the Claude Agent SDK and raise
RuntimeError when that install exits non-zero, then configure the git
credential helper (unchecked), clone claude-toolkit and, only when the
clone exits zero, run its install script; toolkit clone and install
failures are only logged. -/
def setup_sandbox_environment (env : SetupEnv) : SetupRun :=
  if env.sdk_install.exit_code != 0 then
    { commands := ["git_config_email", "git_config_name", "sdk_install"],
      outcome := .error (.runtimeError
        ("Failed to install Claude Agent SDK: " ++ env.sdk_install.stderr)) }
  else if env.toolkit_clone.exit_code == 0 then
    { commands := ["git_config_email", "git_config_name", "sdk_install",
                   "cred_helper", "toolkit_clone", "toolkit_install"],
      outcome := .ok () }
  else
    { commands := ["git_config_email", "git_config_name", "sdk_install",
                   "cred_helper", "toolkit_clone"],
      outcome := .ok () }

/-- The fields run_agent extracts from the agent's final JSON response
(app/services/sandbox.py lines 169-171). -/
structure JsonResponse where
  session_id : Option String
  result : Option String
deriving Repr, DecidableEq

/-- Environment for SandboxService.run_agent: the outcome of the claude
command, the parse of its stdout (none models a JSONDecodeError), the
stdout of the ls over the session directory, and the sandbox file read
(an error models any exception while extracting the transcript). -/
structure AgentEnv where
  claude_outcome : CmdOutcome
  parsed_stdout : Option JsonResponse
  ls_stdout : String
  read_session_file : String → Except String String

/-- The dict run_agent returns (app/services/sandbox.py lines 234-238). -/
structure AgentOutput where
  session_id : Option String
  result : Option String
  timed_out : Bool
deriving Repr, DecidableEq

/-- Return value of run_agent together with the transcript content it
stored under logs/tasks/task_id/session.jsonl. -/
structure AgentRunResult where
  output : AgentOutput
  stored_transcript : String
deriving Repr, DecidableEq

/-- Python truthiness of an optional string: None and the empty string
are falsy. -/
def isTruthy : Option String → Bool
  | none => false
  | some s => s != ""

/-- Python x or d for an optional string x and a string default d. -/
def pyOr (o : Option String) (d : String) : String :=
  match o with
  | some s => if s == "" then d else s
  | none => d

/-- The session files run_agent finds: ls stdout stripped, split on
newlines, each line stripped, empty lines dropped (app/services/sandbox.py
lines 203-205). -/
def sessionFiles (ls_stdout : String) : List String :=
  List.filter (fun f => f != "")
    (List.map pyStrip (pySplitNewlines (pyStrip ls_stdout)))

/-- The transcript-extraction block of run_agent (app/services/sandbox.py
lines 193-232): with no session file, store an empty transcript; with a
first session file, read it, store its content and, when the session id
is still falsy, discover it from the filename (basename minus .jsonl); a
read failure is caught, stores an empty transcript and leaves the
session id unchanged.  Returns the possibly updated session id and the
stored transcript content. -/
def storeSessionFile (env : AgentEnv) (session_id : Option String) :
    Option String × String :=
  match sessionFiles env.ls_stdout with
  | [] => (session_id, "")
  | f :: _ =>
    let name := pyBasename f
    let discovered := pyReplace name ".jsonl" ""
    match env.read_session_file f with
    | .ok content =>
      (if isTruthy session_id then session_id else some discovered, content)
    | .error _ => (session_id, "")

/-- SandboxService.run_agent from app/services/sandbox.py lines 112-238:
run the claude command; on a result, parse stdout (when non-blank) for
session_id and result, with a parse failure only logged; on
TimeoutException set timed_out; re-raise any other exception.  Then
extract the transcript, and return the dict whose result value is
result_text or a placeholder ("Task timed out" when timed out, else
"No result"), so the returned result is never None. -/
def run_agent (env : AgentEnv) : Except PyErr AgentRunResult :=
  match env.claude_outcome with
  | .exn m => .error (.unexpected m)
  | .timeout =>
    let st := storeSessionFile env none
    .ok { output := { session_id := st.fst, result := some "Task timed out",
                      timed_out := true },
          stored_transcript := st.snd }
  | .ok r =>
    let parsed : Option String × Option String :=
      if pyStrip r.stdout != "" then
        match env.parsed_stdout with
        | some j => (j.session_id, j.result)
        | none => (none, none)
      else (none, none)
    let st := storeSessionFile env parsed.fst
    .ok { output := { session_id := st.fst,
                      result := some (pyOr parsed.snd "No result"),
                      timed_out := false },
          stored_transcript := st.snd }

/-- The output dict run_agent builds on the timeout path: no result
text was parsed, so the result value is the timeout placeholder. -/
def timeoutOutput (env : AgentEnv) : AgentOutput :=
  { session_id := (storeSessionFile env none).fst,
    result := some "Task timed out", timed_out := true }

/-- Observable events of one execute_task invocation: a run_command call
site (by label), the agent invocation with its resume session id, a
successful persisted status update, an update call rejected with an
exception before writing, and the sandbox kill attempt of the finally
block (with whether kill itself succeeded). -/
inductive Ev where
  | cmd (label : String)
  | agent (resume : Option String)
  | statusWrite (status : String)
  | updateRejected (status : String) (kwargs : List (String × Option String))
  | kill (ok : Bool)
deriving Repr, DecidableEq

/-- Environment for AgentExecutionService.execute_task: the sandbox id
the provider assigns, the outcome of each external call site in source
order, and whether sandbox.kill() in the finally block succeeds. -/
structure ExecEnv where
  sandbox_id : String
  setup : SetupEnv
  clone : CmdOutcome
  checkout_existing : CmdOutcome
  create_branch : CmdOutcome
  agent : AgentEnv
  add_all : CmdOutcome
  status_porcelain : CmdOutcome
  commit : CmdOutcome
  push : CmdOutcome
  kill_ok : Bool

/-- The dict execute_task returns: the early failure dict with an error
key, or the final status dict with the session id. -/
inductive RetVal where
  | failedEarly (error : String)
  | finished (status : String) (session_id : Option String)
deriving Repr, DecidableEq

/-- In-flight machine state threaded through execute_task: the registry,
the clock stamping updated_at, and the event trace. -/
structure ExecSt where
  reg : Registry
  clock : Nat
  events : List Ev

/-- Result of one execute_task invocation: its return value or uncaught
exception, the final registry, and the event trace. -/
structure ExecResult where
  ret : Except PyErr RetVal
  reg : Registry
  events : List Ev

/-- One SandboxService.run_command call inside execute_task: record the
call site and either return the result object or let the provider
exception (timeout or other) propagate, since execute_task installs no
handler around these calls. -/
def runCmdM (label : String) (o : CmdOutcome) (s : ExecSt) :
    ExecSt × Except PyErr CommandResult :=
  let s1 := { s with events := s.events ++ [Ev.cmd label] }
  match o with
  | .ok r => (s1, .ok r)
  | .timeout => (s1, .error (.unexpected "TimeoutException"))
  | .exn m => (s1, .error (.unexpected m))

/-- One TaskService.update_task_status call inside execute_task, through
Python keyword-call semantics; a successful write advances the clock and
records the persisted status, a raising call records the rejection. -/
def updateM (task_id : Nat) (status : String)
    (kwargs : List (String × Option String)) (s : ExecSt) :
    ExecSt × Except PyErr CloudAgent.Task :=
  match call_update_task_status s.reg s.clock task_id status kwargs with
  | .ok (reg', t') =>
    ({ reg := reg', clock := s.clock + 1,
       events := s.events ++ [Ev.statusWrite status] }, .ok t')
  | .error e =>
    ({ s with events := s.events ++ [Ev.updateRejected status kwargs] }, .error e)

/-- The setup_sandbox_environment call inside execute_task. -/
def setupM (env : SetupEnv) (s : ExecSt) : ExecSt × Except PyErr Unit :=
  let run := setup_sandbox_environment env
  ({ s with events := s.events ++ List.map Ev.cmd run.commands }, run.outcome)

/-- The SandboxService.run_agent call inside execute_task, recording the
resume session id it is invoked with. -/
def agentM (env : AgentEnv) (resume : Option String) (s : ExecSt) :
    ExecSt × Except PyErr AgentOutput :=
  let s1 := { s with events := s.events ++ [Ev.agent resume] }
  match run_agent env with
  | .ok r => (s1, .ok r.output)
  | .error e => (s1, .error e)

/-- Python exception propagation: run the continuation on the new state
when the previous step returned normally, else let the exception flow. -/
def bindE {A B : Type} (x : ExecSt × Except PyErr A)
    (f : A → ExecSt → ExecSt × Except PyErr B) : ExecSt × Except PyErr B :=
  match x with
  | (s1, .error e) => (s1, .error e)
  | (s1, .ok a) => f a s1

/-- The repeated failure pattern of execute_task (clone and branch
failures): persist status failed with the error text and return the
failure dict. -/
def failTask (task_id : Nat) (error : String) (s : ExecSt) :
    ExecSt × Except PyErr RetVal :=
  bindE (updateM task_id "failed" [("result", some error)] s)
    (fun _ s1 => (s1, .ok (.failedEarly error)))

/-- The final-status decision of execute_task lines 164-173: timed_out
forces failed with the partial result folded into the message; otherwise
a truthy result means completed with that text; otherwise failed with
the generic no-result message. -/
def decisionOf (output : AgentOutput) : String × String :=
  if output.timed_out then
    ("failed", "Task timed out. Partial result: " ++ pyOr output.result "None")
  else if isTruthy output.result then
    ("completed", pyOr output.result "")
  else
    ("failed", "Task failed - no result returned")

/-- The commit-and-push section of execute_task lines 176-209, reached
only when the status resolved to completed: stage everything, check
git status --porcelain, and when it reports changes commit and, only on
commit success, push; commit and push failures are only logged. -/
def reconcileStage (env : ExecEnv) (s : ExecSt) : ExecSt × Except PyErr Unit :=
  bindE (runCmdM "add_all" env.add_all s) (fun _ s1 =>
    bindE (runCmdM "status_porcelain" env.status_porcelain s1) (fun st s2 =>
      if pyStrip st.stdout != "" then
        bindE (runCmdM "commit" env.commit s2) (fun commitRes s3 =>
          if commitRes.exit_code == 0 then
            bindE (runCmdM "push" env.push s3) (fun _ s4 => (s4, .ok ()))
          else (s3, .ok ()))
      else (s2, .ok ())))

/-- The tail of execute_task after the agent ran (lines 159-227): decide
the final status, run the commit-and-push section when completed, then
persist the final status — with result, session_id and additionally
branch_name on the completed path, exactly the keyword lists of lines
213-224 — and return the status dict. -/
def persistStage (env : ExecEnv) (task : CloudAgent.Task) (branch_name : String)
    (output : AgentOutput) (s : ExecSt) : ExecSt × Except PyErr RetVal :=
  if (decisionOf output).fst == "completed" then
    bindE (reconcileStage env s) (fun _ s1 =>
      bindE (updateM task.id (decisionOf output).fst
          [("result", some (decisionOf output).snd), ("session_id", output.session_id),
           ("branch_name", some branch_name)] s1)
        (fun _ s2 => (s2, .ok (.finished (decisionOf output).fst output.session_id))))
  else
    bindE (updateM task.id (decisionOf output).fst
        [("result", some (decisionOf output).snd), ("session_id", output.session_id)] s)
      (fun _ s1 => (s1, .ok (.finished (decisionOf output).fst output.session_id)))

/-- Run the agent with the task's own session_id as resume session
(execute_task line 156) and finish. -/
def agentAndFinish (env : ExecEnv) (task : CloudAgent.Task) (branch_name : String)
    (s : ExecSt) : ExecSt × Except PyErr RetVal :=
  bindE (agentM env.agent task.session_id s)
    (fun output s1 => persistStage env task branch_name output s1)

/-- The branch step of execute_task lines 124-149: with a truthy stored
branch_name check that branch out, otherwise create ca/task/task_id;
a non-zero exit marks the task failed and stops. -/
def branchStage (env : ExecEnv) (task : CloudAgent.Task) (s : ExecSt) :
    ExecSt × Except PyErr RetVal :=
  if isTruthy task.branch_name then
    let b := pyOr task.branch_name ""
    bindE (runCmdM "checkout_existing" env.checkout_existing s) (fun r s1 =>
      if r.exit_code != 0 then
        failTask task.id ("Failed to checkout branch " ++ b ++ ": " ++ r.stderr) s1
      else agentAndFinish env task b s1)
  else
    let b := "ca/task/" ++ toString task.id
    bindE (runCmdM "create_branch" env.create_branch s) (fun r s1 =>
      if r.exit_code != 0 then
        failTask task.id ("Failed to create branch " ++ b ++ ": " ++ r.stderr) s1
      else agentAndFinish env task b s1)

/-- The part of execute_task's try block after the sandbox id was
recorded: prepare the environment, clone (a non-zero exit marks the task
failed with the stderr and stops), then the branch step and the rest. -/
def postUpdateStage (env : ExecEnv) (task : CloudAgent.Task) (s : ExecSt) :
    ExecSt × Except PyErr RetVal :=
  bindE (setupM env.setup s) (fun _ s2 =>
    bindE (runCmdM "clone" env.clone s2) (fun cloneRes s3 =>
      if cloneRes.exit_code != 0 then
        failTask task.id ("Failed to clone repo: " ++ cloneRes.stderr) s3
      else
        branchStage env task s3))

/-- The body of execute_task's try block (lines 101-227): record the
sandbox id on the running task, then the rest of the pipeline. -/
def execBody (env : ExecEnv) (task : CloudAgent.Task) (s : ExecSt) :
    ExecSt × Except PyErr RetVal :=
  bindE (updateM task.id "running" [("sandbox_id", some env.sandbox_id)] s)
    (fun _ s1 => postUpdateStage env task s1)

/-- AgentExecutionService.execute_task from
app/services/agent_execution.py lines 78-235: fetch the task (NotFound
propagates), mark it running, create the sandbox, run the try-block
body, and — in the finally block, on every exit path after sandbox
creation — call sandbox.kill() exactly once, an exception from which is
caught and logged without changing the computed outcome or registry. -/
def execute_task (env : ExecEnv) (reg : Registry) (t0 : Nat) (task_id : Nat) :
    ExecResult :=
  match findTask reg task_id with
  | none =>
    { ret := .error (.notFound ("Task with id " ++ toString task_id ++ " not found")),
      reg := reg, events := [] }
  | some task =>
    match call_update_task_status reg t0 task_id "running" [] with
    | .error e => { ret := .error e, reg := reg, events := [] }
    | .ok (reg1, _) =>
      let s0 : ExecSt := { reg := reg1, clock := t0 + 1, events := [Ev.statusWrite "running"] }
      let br := execBody env task s0
      { ret := br.snd, reg := br.fst.reg, events := br.fst.events ++ [Ev.kill env.kill_ok] }

/-- Message rendering of an exception, for the Celery wrapper's
last-resort failure write. -/
def pyErrMsg : PyErr → String
  | .notFound m => m
  | .typeError m => m
  | .runtimeError m => m
  | .unexpected m => m

/-- The Celery task execute_agent_task from app/tasks/agent_execution.py
lines 12-41: delegate to execute_task; on an exception, when the retry
budget is exhausted persist status failed with the exception text and
re-raise, otherwise re-raise for the dispatch layer to retry.  t1 is the
wall-clock time of the last-resort write. -/
def execute_agent_task (env : ExecEnv) (reg : Registry) (t0 t1 : Nat)
    (task_id : Nat) (retries max_retries : Nat) : ExecResult :=
  let r := execute_task env reg t0 task_id
  match r.ret with
  | .ok _ => r
  | .error e =>
    if max_retries ≤ retries then
      match call_update_task_status r.reg t1 task_id "failed"
          [("result", some ("Error: " ++ pyErrMsg e))] with
      | .ok (reg2, _) =>
        { ret := .error e, reg := reg2, events := r.events ++ [Ev.statusWrite "failed"] }
      | .error e2 => { ret := .error e2, reg := r.reg, events := r.events }
    else r

/-- A concrete task row used by witnesses and counterexamples. -/
def sampleTask : Task :=
  { id := 7, created_at := 1, updated_at := 1, prompt := "p", status := "pending",
    result := none, sandbox_id := none, session_id := some "s0",
    parent_task_id := none, repository_url := "u", branch_name := none }

/-- The task update_task_status builds from an existing row and the
keyword arguments of a call site; helper for stating update effects. -/
def updatedTask (t : Task) (now : Nat) (st : String)
    (kwargs : List (String × Option String)) : Task :=
  { t with
    status := st
    updated_at := now
    result := match kwargLookup kwargs "result" with | some r => some r | none => t.result
    sandbox_id := match kwargLookup kwargs "sandbox_id" with | some s => some s | none => t.sandbox_id
    session_id := match kwargLookup kwargs "session_id" with | some s => some s | none => t.session_id }

/-- True on the sandbox-kill event of the finally block. -/
def isKillEv : Ev → Bool
  | .kill _ => true
  | _ => false

/-- Number of sandbox-kill attempts in a trace. -/
def killCount (evs : List Ev) : Nat := List.countP isKillEv evs

/-- True on an agent-invocation event. -/
def isAgentEv : Ev → Bool
  | .agent _ => true
  | _ => false

/-- Number of agent invocations in a trace. -/
def agentCount (evs : List Ev) : Nat := List.countP isAgentEv evs

/-- Number of run_command calls with a given call-site label in a trace. -/
def cmdCount (label : String) (evs : List Ev) : Nat :=
  List.countP (fun e => match e with | Ev.cmd l => l == label | _ => false) evs

/-- The sequence of successfully persisted statuses in a trace. -/
def statusWritesOf (evs : List Ev) : List String :=
  List.filterMap (fun e => match e with | Ev.statusWrite st => some st | _ => none) evs

/-- Substring containment, used to state that a persisted result message
carries a required fragment. -/
def containsStr (s sub : String) : Prop := ∃ p q, s = p ++ (sub ++ q)

/-- A command result with exit code 0 and empty output. -/
def okCmd : CommandResult := { exit_code := 0, stdout := "", stderr := "" }

/-- Setup environment in which every sub-step succeeds. -/
def goodSetup : SetupEnv :=
  { git_config_email := okCmd, git_config_name := okCmd, sdk_install := okCmd,
    cred_helper := okCmd, toolkit_clone := okCmd, toolkit_install := okCmd }

/-- Setup environment in which only the Claude Agent SDK install fails. -/
def sdkFailSetup : SetupEnv :=
  { goodSetup with sdk_install := { exit_code := 1, stdout := "", stderr := "boom" } }

/-- Agent environment: claude exits with a JSON response carrying a
session id and a result text; no session file in the session directory. -/
def agentEnvOk : AgentEnv :=
  { claude_outcome := .ok { exit_code := 0, stdout := "json", stderr := "" },
    parsed_stdout := some { session_id := some "sess-1", result := some "done" },
    ls_stdout := "", read_session_file := fun _ => .ok "" }

/-- Agent environment: claude exits and its JSON response has a session
id but a null result (no result key). -/
def agentEnvNoResult : AgentEnv :=
  { agentEnvOk with parsed_stdout := some { session_id := some "sess-1", result := none } }

/-- Agent environment: the claude command hits the timeout signal. -/
def agentEnvTimeout : AgentEnv :=
  { agentEnvOk with claude_outcome := .timeout }

/-- Execution environment in which every external step succeeds and the
repository has no uncommitted changes after the agent run. -/
def baseEnv : ExecEnv :=
  { sandbox_id := "sb-1", setup := goodSetup, clone := .ok okCmd,
    checkout_existing := .ok okCmd, create_branch := .ok okCmd,
    agent := agentEnvOk, add_all := .ok okCmd,
    status_porcelain := .ok okCmd, commit := .ok okCmd, push := .ok okCmd,
    kill_ok := true }

/-- Like baseEnv but the agent returns no result text. -/
def envNoResult : ExecEnv := { baseEnv with agent := agentEnvNoResult }

/-- Like baseEnv but the agent run times out. -/
def envTimeout : ExecEnv := { baseEnv with agent := agentEnvTimeout }

/-- Like baseEnv but the clone exits 128 with stderr
"repository not found". -/
def envCloneFail : ExecEnv :=
  { baseEnv with clone := .ok { exit_code := 128, stdout := "", stderr := "repository not found" } }

/-- Like baseEnv but the repository has uncommitted changes, the commit
succeeds and the push fails. -/
def envPushFail : ExecEnv :=
  { baseEnv with
    status_porcelain := .ok { exit_code := 0, stdout := " M test.txt\n", stderr := "" }
    push := .ok { exit_code := 1, stdout := "", stderr := "push rejected" } }

/-- A fresh pending task without parent, session or branch. -/
def pendingTask : Task :=
  { id := 1, created_at := 0, updated_at := 0, prompt := "add feature", status := "pending",
    result := none, sandbox_id := none, session_id := none, parent_task_id := none,
    repository_url := "https://github.com/x/y.git", branch_name := none }

/-- A task already in the terminal status completed. -/
def doneTask : Task :=
  { pendingTask with
    status := "completed"
    result := some "done"
    session_id := some "old-sess" }

/-- A completed parent task whose agent conversation has a session id. -/
def parentTask : Task :=
  { pendingTask with status := "completed", session_id := some "parent-sess" }

/-- A fresh child task resuming from parentTask. -/
def childTask : Task := { pendingTask with id := 2, parent_task_id := some 1 }

/-- A pipeline stage appends a trace delta satisfying P, whatever the
input state. -/
def StageDelta {A : Type} (g : ExecSt → ExecSt × Except PyErr A)
    (P : List Ev → Prop) : Prop :=
  ∀ s, ∃ δ, (g s).fst.events = s.events ++ δ ∧ P δ

/-- Trace property of everything execute_task does after the initial
two running writes: no kill event, and the only status it can still
persist is a single failed write (the completed write is always rejected
by the keyword check). -/
def TailProp (δ : List Ev) : Prop :=
  killCount δ = 0 ∧ (statusWritesOf δ = [] ∨ statusWritesOf δ = ["failed"])

/-- The machine state right after execute_task marked the task running. -/
def execStartSt (reg : Registry) (t0 tid : Nat) (task : Task) : ExecSt :=
  { reg := replaceTask reg tid (updatedTask task t0 "running" []),
    clock := t0 + 1, events := [Ev.statusWrite "running"] }

/-- The machine state after execute_task also recorded the sandbox id on
the running task. -/
def runningSt (env : ExecEnv) (reg : Registry) (t0 tid : Nat) (task : Task) : ExecSt :=
  { reg := replaceTask (replaceTask reg tid (updatedTask task t0 "running" [])) tid
      (updatedTask (updatedTask task t0 "running" []) (t0 + 1) "running"
        [("sandbox_id", some env.sandbox_id)]),
    clock := t0 + 2,
    events := [Ev.statusWrite "running", Ev.statusWrite "running"] }

/-- A found task's id matches the key it was found under. -/
theorem findTask_id {reg : Registry} {tid : Nat} {t : Task}
    (h : findTask reg tid = some t) : t.id = tid := by
  have h2 := List.find?_some h
  simpa using h2

/-- Replacing a present row makes the replacement the row found. -/
theorem findTask_replaceTask {reg : Registry} {tid : Nat} {t : Task} (u : Task)
    (h : findTask reg tid = some t) (hu : u.id = tid) :
    findTask (replaceTask reg tid u) tid = some u := by
  have hu2 : (u.id == tid) = true := by simpa using hu
  induction reg with
  | nil => simp [findTask] at h
  | cons a rest ih =>
    cases ha : (a.id == tid) with
    | true =>
      have hap : a.id = tid := by simpa using ha
      have hrep : replaceTask (a :: rest) tid u = u :: replaceTask rest tid u := by
        simp [replaceTask, hap]
      rw [hrep]
      unfold findTask
      exact List.find?_cons_of_pos _ hu2
    | false =>
      have hap : ¬ a.id = tid := by simpa using ha
      have hrep : replaceTask (a :: rest) tid u = a :: replaceTask rest tid u := by
        simp [replaceTask, hap]
      have h2 : findTask rest tid = some t := by
        unfold findTask at h
        rwa [List.find?_cons_of_neg _ (by simp [ha])] at h
      rw [hrep]
      unfold findTask
      rw [List.find?_cons_of_neg _ (by simp [ha])]
      exact ih h2

/-- The updated row keeps the original row's id. -/
theorem updatedTask_id (t : Task) (now : Nat) (st : String)
    (kwargs : List (String × Option String)) : (updatedTask t now st kwargs).id = t.id := rfl

/-- A keyword call of update_task_status on a present task with only
declared keywords commits the updated row. -/
theorem call_update_ok {reg : Registry} {tid : Nat} {t : Task} (now : Nat) (st : String)
    (kwargs : List (String × Option String)) (h : findTask reg tid = some t)
    (hk : List.all kwargs (fun kv => updateKwargNames.contains kv.fst) = true) :
    call_update_task_status reg now tid st kwargs =
      .ok (replaceTask reg tid (updatedTask t now st kwargs), updatedTask t now st kwargs) := by
  simp only [call_update_task_status, hk, update_task_status, h, if_true]
  rfl

/-- updateM on a present task with only declared keywords: the row is
committed, the clock advances, the status write is recorded. -/
theorem updateM_ok {s : ExecSt} {tid : Nat} {t : Task} (st : String)
    (kwargs : List (String × Option String)) (h : findTask s.reg tid = some t)
    (hk : List.all kwargs (fun kv => updateKwargNames.contains kv.fst) = true) :
    updateM tid st kwargs s =
      ({ reg := replaceTask s.reg tid (updatedTask t s.clock st kwargs),
         clock := s.clock + 1, events := s.events ++ [Ev.statusWrite st] },
       .ok (updatedTask t s.clock st kwargs)) := by
  simp [updateM, call_update_ok s.clock st kwargs h hk]

/-- Trace of cmd events only contains no kill. -/
theorem killCount_map_cmd (ls : List String) : killCount (List.map Ev.cmd ls) = 0 := by
  induction ls with
  | nil => rfl
  | cons a l ih =>
    simp only [killCount, List.map_cons, List.countP_cons, isKillEv] at ih ⊢
    simpa using ih






/-- Appending traces adds kill counts. -/
theorem killCount_append (a b : List Ev) :
    killCount (a ++ b) = killCount a + killCount b :=
  List.countP_append _ _ _

/-- Appending traces appends status-write sequences. -/
theorem statusWritesOf_append (a b : List Ev) :
    statusWritesOf (a ++ b) = statusWritesOf a ++ statusWritesOf b :=
  List.filterMap_append _ _ _

/-- A trace of cmd events persists no status. -/
theorem statusWritesOf_map_cmd (ls : List String) :
    statusWritesOf (List.map Ev.cmd ls) = [] := by
  induction ls with
  | nil => rfl
  | cons a l ih =>
    simp only [statusWritesOf, List.map_cons, List.filterMap_cons] at ih ⊢
    exact ih

/-- The empty delta is a tail delta. -/
theorem tailProp_nil : TailProp [] := ⟨rfl, Or.inl rfl⟩

/-- A single command event is a tail delta. -/
theorem tailProp_cmd (l : String) : TailProp [Ev.cmd l] := ⟨rfl, Or.inl rfl⟩

/-- A single agent event is a tail delta. -/
theorem tailProp_agent (r : Option String) : TailProp [Ev.agent r] := ⟨rfl, Or.inl rfl⟩

/-- A rejected update is a tail delta. -/
theorem tailProp_rejected (st : String) (k : List (String × Option String)) :
    TailProp [Ev.updateRejected st k] := ⟨rfl, Or.inl rfl⟩

/-- A persisted failed write is a tail delta. -/
theorem tailProp_failedWrite : TailProp [Ev.statusWrite "failed"] := ⟨rfl, Or.inr rfl⟩

/-- A run of command events is a tail delta. -/
theorem tailProp_map_cmd (ls : List String) : TailProp (List.map Ev.cmd ls) :=
  ⟨killCount_map_cmd ls, Or.inl (statusWritesOf_map_cmd ls)⟩

/-- A write-free, kill-free delta prepended to a tail delta is a tail
delta. -/
theorem tailProp_append_left {d1 d2 : List Ev} (hk : killCount d1 = 0)
    (hw : statusWritesOf d1 = []) (h : TailProp d2) : TailProp (d1 ++ d2) := by
  obtain ⟨hk2, hw2⟩ := h
  refine ⟨?_, ?_⟩
  · rw [killCount_append, hk, hk2]
  · rw [statusWritesOf_append, hw, List.nil_append]
    exact hw2

/-- A write-free, kill-free delta appended to a tail delta is a tail
delta. -/
theorem tailProp_append_right {d1 d2 : List Ev} (h : TailProp d1)
    (hk : killCount d2 = 0) (hw : statusWritesOf d2 = []) : TailProp (d1 ++ d2) := by
  obtain ⟨hk1, hw1⟩ := h
  refine ⟨?_, ?_⟩
  · rw [killCount_append, hk, hk1]
  · rw [statusWritesOf_append, hw, List.append_nil]
    exact hw1

/-- Composition of stage deltas across exception propagation. -/
theorem stageDelta_bindE {A B : Type} {g : ExecSt → ExecSt × Except PyErr A}
    {f : A → ExecSt → ExecSt × Except PyErr B} {P Q R : List Ev → Prop}
    (hg : StageDelta g P) (hf : ∀ a, StageDelta (f a) Q)
    (h1 : ∀ d, P d → R d)
    (h2 : ∀ d1 d2, P d1 → Q d2 → R (d1 ++ d2)) :
    StageDelta (fun s => bindE (g s) f) R := by
  intro s
  obtain ⟨d1, hev, hp⟩ := hg s
  rcases hx : g s with ⟨s1, r⟩
  rw [hx] at hev
  cases r with
  | error e =>
    refine ⟨d1, ?_, h1 d1 hp⟩
    simpa [bindE, hx] using hev
  | ok a =>
    obtain ⟨d2, hev2, hq⟩ := hf a s1
    have hev1 : s1.events = s.events ++ d1 := by simpa using hev
    refine ⟨d1 ++ d2, ?_, h2 d1 d2 hp hq⟩
    show (bindE (g s) f).fst.events = s.events ++ (d1 ++ d2)
    rw [hx]
    show (f a s1).fst.events = s.events ++ (d1 ++ d2)
    rw [hev2, hev1, List.append_assoc]

/-- A stage branching on a state-independent condition keeps a common
stage delta. -/
theorem stageDelta_ite {A : Type} {c : Prop} [Decidable c]
    {g h : ExecSt → ExecSt × Except PyErr A} {P : List Ev → Prop}
    (hg : StageDelta g P) (hh : StageDelta h P) :
    StageDelta (fun s => if c then g s else h s) P := by
  intro s
  by_cases hc : c
  · simpa [hc] using hg s
  · simpa [hc] using hh s

/-- runCmdM appends exactly its cmd event. -/
theorem stageDelta_runCmdM (label : String) (o : CmdOutcome) :
    StageDelta (runCmdM label o) (fun d => d = [Ev.cmd label]) := by
  intro s
  cases o <;> exact ⟨[Ev.cmd label], rfl, rfl⟩

/-- updateM appends one write event or one rejection event. -/
theorem stageDelta_updateM (tid : Nat) (st : String)
    (kwargs : List (String × Option String)) :
    StageDelta (updateM tid st kwargs)
      (fun d => d = [Ev.statusWrite st] ∨ d = [Ev.updateRejected st kwargs]) := by
  intro s
  cases hc : call_update_task_status s.reg s.clock tid st kwargs with
  | ok p =>
    obtain ⟨r, t⟩ := p
    exact ⟨[Ev.statusWrite st], by simp [updateM, hc], Or.inl rfl⟩
  | error e =>
    exact ⟨[Ev.updateRejected st kwargs], by simp [updateM, hc], Or.inr rfl⟩

/-- updateM with an undeclared keyword always appends the rejection. -/
theorem stageDelta_updateM_rejected (tid : Nat) (st : String)
    (kwargs : List (String × Option String))
    (hk : List.all kwargs (fun kv => updateKwargNames.contains kv.fst) = false) :
    StageDelta (updateM tid st kwargs) (fun d => d = [Ev.updateRejected st kwargs]) := by
  intro s
  refine ⟨_, ?_, rfl⟩
  unfold updateM call_update_task_status
  rw [hk]
  rfl

/-- setupM appends exactly the executed setup command events. -/
theorem stageDelta_setupM (env : SetupEnv) :
    StageDelta (setupM env)
      (fun d => d = List.map Ev.cmd (setup_sandbox_environment env).commands) :=
  fun _ => ⟨_, rfl, rfl⟩

/-- agentM appends exactly its agent event. -/
theorem stageDelta_agentM (env : AgentEnv) (resume : Option String) :
    StageDelta (agentM env resume) (fun d => d = [Ev.agent resume]) := by
  intro s
  cases h : run_agent env <;> exact ⟨[Ev.agent resume], by simp [agentM, h], rfl⟩

/-- A stage returning a value appends nothing. -/
theorem stageDelta_ok {A : Type} (v : A) :
    StageDelta (fun s => (s, Except.ok v)) (fun d => d = []) :=
  fun s => ⟨[], by simp, rfl⟩

/-- A command step followed by a tail stage is a tail stage. -/
theorem tailStage_cmd_then {A : Type} (label : String) (o : CmdOutcome)
    {f : CommandResult → ExecSt → ExecSt × Except PyErr A}
    (hf : ∀ r, StageDelta (f r) TailProp) :
    StageDelta (fun s => bindE (runCmdM label o s) f) TailProp := by
  apply stageDelta_bindE (stageDelta_runCmdM label o) hf
  · intro d hd
    rw [hd]
    exact tailProp_cmd label
  · intro d1 d2 h1 h2
    rw [h1]
    exact tailProp_append_left rfl rfl h2

/-- The agent step followed by a tail stage is a tail stage. -/
theorem tailStage_agent_then {A : Type} (env : AgentEnv) (resume : Option String)
    {f : AgentOutput → ExecSt → ExecSt × Except PyErr A}
    (hf : ∀ o, StageDelta (f o) TailProp) :
    StageDelta (fun s => bindE (agentM env resume s) f) TailProp := by
  apply stageDelta_bindE (stageDelta_agentM env resume) hf
  · intro d hd
    rw [hd]
    exact tailProp_agent resume
  · intro d1 d2 h1 h2
    rw [h1]
    exact tailProp_append_left rfl rfl h2

/-- The setup step followed by a tail stage is a tail stage. -/
theorem tailStage_setup_then {A : Type} (env : SetupEnv)
    {f : Unit → ExecSt → ExecSt × Except PyErr A}
    (hf : ∀ u, StageDelta (f u) TailProp) :
    StageDelta (fun s => bindE (setupM env s) f) TailProp := by
  apply stageDelta_bindE (stageDelta_setupM env) hf
  · intro d hd
    rw [hd]
    exact tailProp_map_cmd _
  · intro d1 d2 h1 h2
    rw [h1]
    exact tailProp_append_left (killCount_map_cmd _) (statusWritesOf_map_cmd _) h2

/-- failTask is a tail stage: it writes failed once or is rejected. -/
theorem tailStage_failTask (tid : Nat) (err : String) :
    StageDelta (failTask tid err) TailProp := by
  unfold failTask
  apply stageDelta_bindE (stageDelta_updateM tid "failed" [("result", some err)])
      (fun a => stageDelta_ok _)
  · intro d hd
    rcases hd with h | h
    · rw [h]; exact tailProp_failedWrite
    · rw [h]; exact tailProp_rejected _ _
  · intro d1 d2 h1 h2
    rw [h2, List.append_nil]
    rcases h1 with h | h
    · rw [h]; exact tailProp_failedWrite
    · rw [h]; exact tailProp_rejected _ _

/-- The decided status is always failed or completed. -/
theorem decisionOf_fst (output : AgentOutput) :
    (decisionOf output).fst = "failed" ∨ (decisionOf output).fst = "completed" := by
  unfold decisionOf
  cases h : output.timed_out
  · cases h2 : isTruthy output.result <;> simp [h, h2]
  · simp [h]

/-- The commit-and-push section is a tail stage (it persists nothing). -/
theorem tailStage_reconcile (env : ExecEnv) :
    StageDelta (reconcileStage env) TailProp := by
  unfold reconcileStage
  apply tailStage_cmd_then
  intro r1
  apply tailStage_cmd_then
  intro st
  apply stageDelta_ite
  · apply tailStage_cmd_then
    intro commitRes
    apply stageDelta_ite
    · apply tailStage_cmd_then
      intro r4
      exact fun s => ⟨[], by simp, tailProp_nil⟩
    · exact fun s => ⟨[], by simp, tailProp_nil⟩
  · exact fun s => ⟨[], by simp, tailProp_nil⟩

/-- The completed-path final update composed with its return is silent:
the branch_name keyword is always rejected before anything is written. -/
theorem stageDelta_completedPersist (task : Task) (b : String)
    (output : AgentOutput) :
    StageDelta
      (fun s1 => bindE (updateM task.id (decisionOf output).fst
          [("result", some (decisionOf output).snd), ("session_id", output.session_id),
           ("branch_name", some b)] s1)
        (fun _ s2 => (s2, Except.ok (RetVal.finished (decisionOf output).fst output.session_id))))
      (fun d => killCount d = 0 ∧ statusWritesOf d = []) := by
  apply stageDelta_bindE
      (stageDelta_updateM_rejected task.id (decisionOf output).fst
        [("result", some (decisionOf output).snd), ("session_id", output.session_id),
         ("branch_name", some b)] rfl)
      (fun a => stageDelta_ok _)
  · intro d hd
    rw [hd]
    exact ⟨rfl, rfl⟩
  · intro d1 d2 h1 h2
    rw [h1, h2, List.append_nil]
    exact ⟨rfl, rfl⟩

/-- The final persist is a tail stage: on the completed path the update
is always rejected by the branch_name keyword; on the failed path it
writes failed at most once. -/
theorem tailStage_persist (env : ExecEnv) (task : Task) (b : String)
    (output : AgentOutput) :
    StageDelta (persistStage env task b output) TailProp := by
  suffices hsuff : StageDelta (fun s => persistStage env task b output s) TailProp by
    exact hsuff
  rcases decisionOf_fst output with hf | hf
  · have hcond : ((decisionOf output).fst == "completed") = false := by
      rw [hf]
      rfl
    simp only [persistStage, hcond, Bool.false_eq_true, if_false]
    apply stageDelta_bindE (stageDelta_updateM task.id (decisionOf output).fst _)
        (fun a => stageDelta_ok _)
    · intro d hd
      rcases hd with h | h
      · rw [h, hf]
        exact tailProp_failedWrite
      · rw [h]
        exact tailProp_rejected _ _
    · intro d1 d2 h1 h2
      rw [h2, List.append_nil]
      rcases h1 with h | h
      · rw [h, hf]
        exact tailProp_failedWrite
      · rw [h]
        exact tailProp_rejected _ _
  · have hcond : ((decisionOf output).fst == "completed") = true := by
      rw [hf]
      rfl
    simp only [persistStage, hcond, if_true]
    apply stageDelta_bindE (tailStage_reconcile env)
        (fun a => stageDelta_completedPersist task b output)
    · intro d hd
      exact hd
    · intro d1 d2 h1 h2
      exact tailProp_append_right h1 h2.1 h2.2

/-- The agent step and everything after it is a tail stage. -/
theorem tailStage_agentAndFinish (env : ExecEnv) (task : Task) (b : String) :
    StageDelta (agentAndFinish env task b) TailProp := by
  unfold agentAndFinish
  exact tailStage_agent_then env.agent task.session_id
    (fun o => tailStage_persist env task b o)

/-- The branch step and everything after it is a tail stage. -/
theorem tailStage_branch (env : ExecEnv) (task : Task) :
    StageDelta (branchStage env task) TailProp := by
  unfold branchStage
  apply stageDelta_ite
  · apply tailStage_cmd_then
    intro r
    apply stageDelta_ite
    · exact tailStage_failTask _ _
    · exact tailStage_agentAndFinish env task _
  · apply tailStage_cmd_then
    intro r
    apply stageDelta_ite
    · exact tailStage_failTask _ _
    · exact tailStage_agentAndFinish env task _

/-- Everything after the sandbox-id write is a tail stage: no kill
event, and at most one more persisted status, which is failed. -/
theorem tailStage_postUpdate (env : ExecEnv) (task : Task) :
    StageDelta (postUpdateStage env task) TailProp := by
  unfold postUpdateStage
  apply tailStage_setup_then
  intro u
  apply tailStage_cmd_then
  intro cloneRes
  apply stageDelta_ite
  · exact tailStage_failTask _ _
  · exact tailStage_branch env task

/-- The overall trace shape of execute_task on a present task: two
running writes, a tail delta, and exactly one final kill event. -/
theorem execute_task_shape (env : ExecEnv) (reg : Registry) (t0 tid : Nat) (task : Task)
    (h : findTask reg tid = some task) :
    ∃ d, TailProp d ∧
      (execute_task env reg t0 tid).events =
        [Ev.statusWrite "running", Ev.statusWrite "running"] ++ d ++ [Ev.kill env.kill_ok] := by
  have hid : (updatedTask task t0 "running" []).id = tid := by
    rw [updatedTask_id]
    exact findTask_id h
  have h1 : findTask (execStartSt reg t0 tid task).reg tid
      = some (updatedTask task t0 "running" []) :=
    findTask_replaceTask _ h hid
  have h2 := updateM_ok (s := execStartSt reg t0 tid task)
    "running" [("sandbox_id", some env.sandbox_id)] h1 rfl
  obtain ⟨d, hev, hp⟩ := tailStage_postUpdate env task
    { reg := replaceTask (execStartSt reg t0 tid task).reg tid
        (updatedTask (updatedTask task t0 "running" []) (execStartSt reg t0 tid task).clock
          "running" [("sandbox_id", some env.sandbox_id)]),
      clock := (execStartSt reg t0 tid task).clock + 1,
      events := (execStartSt reg t0 tid task).events ++ [Ev.statusWrite "running"] }
  refine ⟨d, hp, ?_⟩
  simp only [execute_task, h, call_update_ok t0 "running" [] h rfl]
  show (execBody env task (execStartSt reg t0 tid task)).fst.events ++ [Ev.kill env.kill_ok]
      = _
  simp only [execBody]
  rw [findTask_id h, h2]
  simp only [bindE]
  rw [hev]
  simp [execStartSt]

/-- runCmdM on a returned command result. -/
theorem runCmdM_ok (label : String) (cr : CommandResult) (s : ExecSt) :
    runCmdM label (CmdOutcome.ok cr) s =
      ({ s with events := s.events ++ [Ev.cmd label] }, .ok cr) := rfl

/-- With the SDK install succeeding, setup_sandbox_environment returns
normally. -/
theorem setup_outcome_ok {env : SetupEnv} (h : env.sdk_install.exit_code = 0) :
    (setup_sandbox_environment env).outcome = .ok () := by
  unfold setup_sandbox_environment
  rw [show (env.sdk_install.exit_code != 0) = false by simp [h]]
  simp only [Bool.false_eq_true, if_false]
  split <;> rfl

/-- With the SDK install succeeding, setupM appends its command events
and returns normally. -/
theorem setupM_ok {env : SetupEnv} (h : env.sdk_install.exit_code = 0) (s : ExecSt) :
    setupM env s =
      ({ s with events := s.events ++ List.map Ev.cmd (setup_sandbox_environment env).commands },
       Except.ok ()) := by
  simp only [setupM]
  rw [setup_outcome_ok h]

/-- The executed setup command list is one of three concrete lists. -/
theorem setup_commands_cases (env : SetupEnv) :
    (setup_sandbox_environment env).commands
        = ["git_config_email", "git_config_name", "sdk_install"] ∨
    (setup_sandbox_environment env).commands
        = ["git_config_email", "git_config_name", "sdk_install",
           "cred_helper", "toolkit_clone", "toolkit_install"] ∨
    (setup_sandbox_environment env).commands
        = ["git_config_email", "git_config_name", "sdk_install",
           "cred_helper", "toolkit_clone"] := by
  unfold setup_sandbox_environment
  split
  · exact Or.inl rfl
  · split
    · exact Or.inr (Or.inl rfl)
    · exact Or.inr (Or.inr rfl)

/-- On the timeout signal, run_agent returns normally with timed_out
true and the placeholder result. -/
theorem run_agent_timeout {env : AgentEnv} (h : env.claude_outcome = CmdOutcome.timeout) :
    run_agent env =
      .ok { output := timeoutOutput env,
            stored_transcript := (storeSessionFile env none).snd } := by
  unfold run_agent
  rw [h]
  rfl

/-- agentM on a normally returning run_agent. -/
theorem agentM_ok {env : AgentEnv} {res : AgentRunResult} (resume : Option String)
    (h : run_agent env = .ok res) (s : ExecSt) :
    agentM env resume s =
      ({ s with events := s.events ++ [Ev.agent resume] }, .ok res.output) := by
  unfold agentM
  rw [h]

/-- The decision for a timed-out run: failed, with the placeholder
partial result folded into the message. -/
theorem decisionOf_timeout (sid : Option String) :
    decisionOf { session_id := sid, result := some "Task timed out", timed_out := true } =
      ("failed", "Task timed out. Partial result: Task timed out") := rfl

/-- On a failed decision, persistStage takes the two-keyword update. -/
theorem persistStage_failed (output : AgentOutput)
    (hd : (decisionOf output).fst = "failed") (env : ExecEnv) (task : Task)
    (b : String) (s : ExecSt) :
    persistStage env task b output s =
      bindE (updateM task.id "failed"
          [("result", some (decisionOf output).snd), ("session_id", output.session_id)] s)
        (fun _ s1 => (s1, .ok (.finished "failed" output.session_id))) := by
  unfold persistStage
  simp only [hd]
  rfl

/-- On a present task, execute_task runs the post-update pipeline from
the running state and appends the one kill event. -/
theorem execute_task_run (env : ExecEnv) (reg : Registry) (t0 tid : Nat) (task : Task)
    (h : findTask reg tid = some task) :
    execute_task env reg t0 tid =
      { ret := (postUpdateStage env task (runningSt env reg t0 tid task)).snd,
        reg := (postUpdateStage env task (runningSt env reg t0 tid task)).fst.reg,
        events := (postUpdateStage env task (runningSt env reg t0 tid task)).fst.events
          ++ [Ev.kill env.kill_ok] } := by
  have hid : (updatedTask task t0 "running" []).id = tid := by
    rw [updatedTask_id]
    exact findTask_id h
  have h1 : findTask (execStartSt reg t0 tid task).reg tid
      = some (updatedTask task t0 "running" []) :=
    findTask_replaceTask _ h hid
  have h2 := updateM_ok (s := execStartSt reg t0 tid task)
    "running" [("sandbox_id", some env.sandbox_id)] h1 rfl
  simp only [execute_task, h, call_update_ok t0 "running" [] h rfl, execBody]
  simp only [execStartSt] at h2
  rw [findTask_id h, h2]
  rfl

/-- updateM on an explicit state record with a present task and declared
keywords. -/
theorem updateM_ok2 {t : Task} {rg : Registry} (tid2 : Nat) (st : String)
    (kwargs : List (String × Option String)) (ck : Nat) (evs : List Ev)
    (h : findTask rg tid2 = some t)
    (hk : List.all kwargs (fun kv => updateKwargNames.contains kv.fst) = true) :
    updateM tid2 st kwargs { reg := rg, clock := ck, events := evs } =
      ({ reg := replaceTask rg tid2 (updatedTask t ck st kwargs), clock := ck + 1,
         events := evs ++ [Ev.statusWrite st] }, .ok (updatedTask t ck st kwargs)) := by
  simp [updateM, call_update_ok ck st kwargs h hk]

/-- C10: for every call to update_task_status on an existing task, status
and updated_at are always overwritten, result / sandbox_id / session_id
are overwritten only when the corresponding argument is non-None, and the
fields id, prompt, repository_url, parent_task_id, created_at (and
branch_name) are never modified. -/
theorem c10_update_task_status_frame (reg : Registry) (now tid : Nat) (st : String)
    (res sb ss : Option String) (task : Task) (h : findTask reg tid = some task) :
    ∃ t', update_task_status reg now tid st res sb ss = .ok (replaceTask reg tid t', t') ∧
      t'.status = st ∧
      t'.updated_at = now ∧
      t'.result = (match res with | some r => some r | none => task.result) ∧
      t'.sandbox_id = (match sb with | some s => some s | none => task.sandbox_id) ∧
      t'.session_id = (match ss with | some s => some s | none => task.session_id) ∧
      t'.id = task.id ∧
      t'.prompt = task.prompt ∧
      t'.repository_url = task.repository_url ∧
      t'.parent_task_id = task.parent_task_id ∧
      t'.created_at = task.created_at ∧
      t'.branch_name = task.branch_name := by
  unfold update_task_status
  rw [h]
  exact ⟨_, rfl, rfl, rfl, rfl, rfl, rfl, rfl, rfl, rfl, rfl, rfl, rfl⟩

/-- Witness for C10 at a concrete registry and argument vector. -/
theorem c10_update_task_status_frame_witness :
    ∃ t', update_task_status [sampleTask] 5 7 "running" (some "r") none none =
      .ok (replaceTask [sampleTask] 7 t', t') ∧
      t'.status = "running" ∧
      t'.updated_at = 5 ∧
      t'.result = (match some "r" with | some r => some r | none => sampleTask.result) ∧
      t'.sandbox_id = (match (none : Option String) with | some s => some s | none => sampleTask.sandbox_id) ∧
      t'.session_id = (match (none : Option String) with | some s => some s | none => sampleTask.session_id) ∧
      t'.id = sampleTask.id ∧
      t'.prompt = sampleTask.prompt ∧
      t'.repository_url = sampleTask.repository_url ∧
      t'.parent_task_id = sampleTask.parent_task_id ∧
      t'.created_at = sampleTask.created_at ∧
      t'.branch_name = sampleTask.branch_name :=
  c10_update_task_status_frame [sampleTask] 5 7 "running" (some "r") none none sampleTask
    (by decide)

/-- C1: the claimed persistence of branch_name on the completed path
fails on the code: at a run whose agent completes with a result, the
final registry update passes a branch_name keyword that
update_task_status does not declare, so execute_task raises TypeError,
nothing terminal is persisted, and the stored task stays in status
running with branch_name still null. -/
theorem c1_branch_persist_raises_typeerror :
    (execute_task baseEnv [pendingTask] 0 1).ret =
      .error (.typeError "update_task_status() got an unexpected keyword argument") ∧
    Ev.updateRejected "completed"
        [("result", some "done"), ("session_id", some "sess-1"),
         ("branch_name", some "ca/task/1")] ∈ (execute_task baseEnv [pendingTask] 0 1).events ∧
    Option.map (fun t => t.status) (findTask (execute_task baseEnv [pendingTask] 0 1).reg 1) =
      some "running" ∧
    Option.map (fun t => t.branch_name) (findTask (execute_task baseEnv [pendingTask] 0 1).reg 1) =
      some none :=
  ⟨rfl, by decide, rfl, rfl⟩

/-- C2: a run with timed_out false and a null result text is not
resolved to failed: run_agent substitutes the placeholder "No result"
for the null result text, so execute_task decides status completed with
result "No result" (the commit-and-push section runs and the completed
persist with that text is attempted), and no failed status is ever
written. -/
theorem c2_null_result_marked_completed :
    run_agent agentEnvNoResult =
      .ok { output := { session_id := some "sess-1", result := some "No result",
                        timed_out := false },
            stored_transcript := "" } ∧
    Ev.updateRejected "completed"
        [("result", some "No result"), ("session_id", some "sess-1"),
         ("branch_name", some "ca/task/1")] ∈ (execute_task envNoResult [pendingTask] 0 1).events ∧
    Ev.statusWrite "failed" ∉ (execute_task envNoResult [pendingTask] 0 1).events ∧
    Ev.cmd "add_all" ∈ (execute_task envNoResult [pendingTask] 0 1).events :=
  ⟨rfl, by decide, by decide, by decide⟩

/-- C3: the environment-preparation step is not exception-free: when the
Claude Agent SDK install sub-step exits non-zero,
setup_sandbox_environment raises RuntimeError instead of catching and
logging the failure. -/
theorem c3_setup_raises_on_sdk_failure :
    (setup_sandbox_environment sdkFailSetup).outcome =
      .error (.runtimeError "Failed to install Claude Agent SDK: boom") := rfl

/-- C4: for a child task with parent_task_id set, execute_task neither
restores parent artifacts nor resumes the parent's session: the agent is
invoked with the child's own (null) session_id as the resume session,
not the parent's session id, although the parent's stored session id is
available in the registry. -/
theorem c4_parent_session_not_resumed :
    findTask [parentTask, childTask] 1 = some parentTask ∧
    parentTask.session_id = some "parent-sess" ∧
    childTask.parent_task_id = some 1 ∧
    Ev.agent none ∈ (execute_task baseEnv [parentTask, childTask] 0 2).events ∧
    Ev.agent (some "parent-sess") ∉ (execute_task baseEnv [parentTask, childTask] 0 2).events :=
  ⟨by decide, rfl, rfl, by decide, by decide⟩

/-- C8: when a completed run has uncommitted changes and the push step
fails, the push failure indeed does not change the decided status — the
push is only logged — but the task is not persisted as completed either:
the completed-path registry update raises TypeError (branch_name is not
a declared parameter), so the stored task remains in status running. -/
theorem c8_push_failure_completed_not_persisted :
    Ev.cmd "push" ∈ (execute_task envPushFail [pendingTask] 0 1).events ∧
    (execute_task envPushFail [pendingTask] 0 1).ret =
      .error (.typeError "update_task_status() got an unexpected keyword argument") ∧
    Option.map (fun t => t.status) (findTask (execute_task envPushFail [pendingTask] 0 1).reg 1) =
      some "running" ∧
    Ev.statusWrite "completed" ∉ (execute_task envPushFail [pendingTask] 0 1).events :=
  ⟨by decide, rfl, rfl, by decide⟩

/-- C9 counterexample: statuses do not progress monotonically under
redelivery: re-running execute_task on a task already in the terminal
status completed first writes running again and, when the redelivered
attempt fails at the clone, overwrites the terminal completed status
with failed. -/
theorem c9_backward_transition_counterexample :
    Option.map (fun t => t.status) (findTask [doneTask] 1) = some "completed" ∧
    Ev.statusWrite "running" ∈ (execute_task envCloneFail [doneTask] 0 1).events ∧
    Option.map (fun t => t.status) (findTask (execute_task envCloneFail [doneTask] 0 1).reg 1) =
      some "failed" :=
  ⟨rfl, by decide, rfl⟩

/-- C7: on every exit path of execute_task after sandbox creation — for
every outcome of every pipeline step — the finally-block kill is invoked
exactly once, and an exception raised by kill (kill_ok false) changes
neither the computed return value nor the final registry. -/
theorem c7_unconditional_teardown (env : ExecEnv) (b : Bool) (reg : Registry)
    (t0 tid : Nat) (task : Task) (h : findTask reg tid = some task) :
    killCount (execute_task env reg t0 tid).events = 1 ∧
    (execute_task { env with kill_ok := b } reg t0 tid).ret
      = (execute_task env reg t0 tid).ret ∧
    (execute_task { env with kill_ok := b } reg t0 tid).reg
      = (execute_task env reg t0 tid).reg := by
  refine ⟨?_, ?_, ?_⟩
  · obtain ⟨d, hp, hev⟩ := execute_task_shape env reg t0 tid task h
    rw [hev, killCount_append, killCount_append, hp.1]
    rfl
  · rw [execute_task_run { env with kill_ok := b } reg t0 tid task h,
      execute_task_run env reg t0 tid task h]
    rfl
  · rw [execute_task_run { env with kill_ok := b } reg t0 tid task h,
      execute_task_run env reg t0 tid task h]
    rfl

/-- Witness for C7 at a concrete environment and registry. -/
theorem c7_unconditional_teardown_witness :
    findTask [pendingTask] 1 = some pendingTask ∧
    (killCount (execute_task baseEnv [pendingTask] 0 1).events = 1 ∧
     (execute_task { baseEnv with kill_ok := false } [pendingTask] 0 1).ret
       = (execute_task baseEnv [pendingTask] 0 1).ret ∧
     (execute_task { baseEnv with kill_ok := false } [pendingTask] 0 1).reg
       = (execute_task baseEnv [pendingTask] 0 1).reg) :=
  ⟨by decide, c7_unconditional_teardown baseEnv false [pendingTask] 0 1 pendingTask (by decide)⟩

/-- C9 amended: within one delivery on an existing task the persisted
statuses are exactly running, running, then at most one failed write, so
running always precedes any terminal write; across redeliveries the
claimed monotonicity fails (see the counterexample), because
execute_task unconditionally re-marks the task running. -/
theorem c9_amended_single_delivery_writes (env : ExecEnv) (reg : Registry)
    (t0 tid : Nat) (task : Task) (h : findTask reg tid = some task) :
    ∃ rest, statusWritesOf (execute_task env reg t0 tid).events =
      "running" :: "running" :: rest ∧ (rest = [] ∨ rest = ["failed"]) := by
  obtain ⟨d, hp, hev⟩ := execute_task_shape env reg t0 tid task h
  refine ⟨statusWritesOf d, ?_, hp.2⟩
  rw [hev, statusWritesOf_append, statusWritesOf_append]
  simp [statusWritesOf]

/-- Witness for the amended C9 at a concrete environment and registry. -/
theorem c9_amended_single_delivery_writes_witness :
    findTask [pendingTask] 1 = some pendingTask ∧
    (∃ rest, statusWritesOf (execute_task baseEnv [pendingTask] 0 1).events =
      "running" :: "running" :: rest ∧ (rest = [] ∨ rest = ["failed"])) :=
  ⟨by decide,
   c9_amended_single_delivery_writes baseEnv [pendingTask] 0 1 pendingTask (by decide)⟩

/-- Post-update pipeline under the timeout signal: run_agent returns
timed_out as data, and the task is marked failed with the timeout
message. -/
theorem postUpdate_timeout {env : ExecEnv} {task t2 : Task} {cr br : CommandResult}
    (rg : Registry) (ck : Nat) (evs : List Ev)
    (h2 : findTask rg task.id = some t2)
    (hsdk : env.setup.sdk_install.exit_code = 0)
    (hclone : env.clone = CmdOutcome.ok cr) (hcr : cr.exit_code = 0)
    (hbr : (if isTruthy task.branch_name then env.checkout_existing else env.create_branch)
        = CmdOutcome.ok br)
    (hbrz : br.exit_code = 0)
    (htime : env.agent.claude_outcome = CmdOutcome.timeout) :
    ∃ sid t',
      (postUpdateStage env task { reg := rg, clock := ck, events := evs }).snd
        = .ok (.finished "failed" sid) ∧
      findTask (postUpdateStage env task
          { reg := rg, clock := ck, events := evs }).fst.reg task.id = some t' ∧
      t'.status = "failed" ∧
      t'.result = some "Task timed out. Partial result: Task timed out" := by
  simp only [postUpdateStage]
  rw [setupM_ok hsdk]
  simp only [bindE]
  rw [hclone, runCmdM_ok]
  simp only [bindE]
  rw [show (cr.exit_code != 0) = false by simp [hcr]]
  simp only [Bool.false_eq_true, if_false]
  simp only [branchStage]
  cases hb : isTruthy task.branch_name with
  | true =>
    rw [hb] at hbr
    simp only [if_true] at hbr
    simp only [hb, if_true]
    rw [hbr, runCmdM_ok]
    simp only [bindE]
    rw [show (br.exit_code != 0) = false by simp [hbrz]]
    simp only [Bool.false_eq_true, if_false]
    simp only [agentAndFinish]
    rw [agentM_ok task.session_id (run_agent_timeout htime)]
    simp only [bindE]
    rw [persistStage_failed (timeoutOutput env.agent) rfl]
    rw [updateM_ok2 task.id "failed"
      [("result", some (decisionOf (timeoutOutput env.agent)).snd),
       ("session_id", (timeoutOutput env.agent).session_id)] _ _ h2 rfl]
    simp only [bindE]
    refine ⟨(timeoutOutput env.agent).session_id,
      updatedTask t2 ck "failed"
        [("result", some (decisionOf (timeoutOutput env.agent)).snd),
         ("session_id", (timeoutOutput env.agent).session_id)], rfl, ?_, rfl, rfl⟩
    exact findTask_replaceTask _ h2 (by rw [updatedTask_id]; exact findTask_id h2)
  | false =>
    rw [hb] at hbr
    simp only [Bool.false_eq_true, if_false] at hbr
    simp only [hb, Bool.false_eq_true, if_false]
    rw [hbr, runCmdM_ok]
    simp only [bindE]
    rw [show (br.exit_code != 0) = false by simp [hbrz]]
    simp only [Bool.false_eq_true, if_false]
    simp only [agentAndFinish]
    rw [agentM_ok task.session_id (run_agent_timeout htime)]
    simp only [bindE]
    rw [persistStage_failed (timeoutOutput env.agent) rfl]
    rw [updateM_ok2 task.id "failed"
      [("result", some (decisionOf (timeoutOutput env.agent)).snd),
       ("session_id", (timeoutOutput env.agent).session_id)] _ _ h2 rfl]
    simp only [bindE]
    refine ⟨(timeoutOutput env.agent).session_id,
      updatedTask t2 ck "failed"
        [("result", some (decisionOf (timeoutOutput env.agent)).snd),
         ("session_id", (timeoutOutput env.agent).session_id)], rfl, ?_, rfl, rfl⟩
    exact findTask_replaceTask _ h2 (by rw [updatedTask_id]; exact findTask_id h2)

/-- C5: an agent run that hits the timeout signal is reported as data
(timed_out true, no exception crossing into reconciliation) and the task
always resolves to status failed with a persisted result message
containing "timed out" together with the salvaged partial result. -/
theorem c5_timeout_resolves_failed (env : ExecEnv) (reg : Registry) (t0 tid : Nat)
    (task : Task) (cr br : CommandResult) (h : findTask reg tid = some task)
    (hsdk : env.setup.sdk_install.exit_code = 0)
    (hclone : env.clone = CmdOutcome.ok cr) (hcr : cr.exit_code = 0)
    (hbr : (if isTruthy task.branch_name then env.checkout_existing else env.create_branch)
        = CmdOutcome.ok br)
    (hbrz : br.exit_code = 0)
    (htime : env.agent.claude_outcome = CmdOutcome.timeout) :
    ∃ sid t', (execute_task env reg t0 tid).ret = .ok (.finished "failed" sid) ∧
      findTask (execute_task env reg t0 tid).reg tid = some t' ∧
      t'.status = "failed" ∧
      t'.result = some "Task timed out. Partial result: Task timed out" ∧
      containsStr "Task timed out. Partial result: Task timed out" "timed out" := by
  have hidt : task.id = tid := findTask_id h
  subst hidt
  have hid1 : (updatedTask task t0 "running" []).id = task.id :=
    updatedTask_id task t0 "running" []
  have f1 : findTask (replaceTask reg task.id (updatedTask task t0 "running" [])) task.id
      = some (updatedTask task t0 "running" []) := findTask_replaceTask _ h hid1
  have hid2 : (updatedTask (updatedTask task t0 "running" []) (t0 + 1) "running"
      [("sandbox_id", some env.sandbox_id)]).id = task.id := by
    rw [updatedTask_id]
    exact hid1
  have h2 : findTask (runningSt env reg t0 task.id task).reg task.id
      = some (updatedTask (updatedTask task t0 "running" []) (t0 + 1) "running"
          [("sandbox_id", some env.sandbox_id)]) :=
    findTask_replaceTask _ f1 hid2
  obtain ⟨sid, t', hret, hfind, hst, hres⟩ :=
    postUpdate_timeout (runningSt env reg t0 task.id task).reg
      (runningSt env reg t0 task.id task).clock (runningSt env reg t0 task.id task).events
      h2 hsdk hclone hcr hbr hbrz htime
  rw [execute_task_run env reg t0 task.id task h]
  refine ⟨sid, t', hret, hfind, hst, hres,
    ⟨"Task ", ". Partial result: Task timed out", by rfl⟩⟩

/-- Witness for C5 at a concrete environment and registry. -/
theorem c5_timeout_resolves_failed_witness :
    findTask [pendingTask] 1 = some pendingTask ∧
    envTimeout.setup.sdk_install.exit_code = 0 ∧
    envTimeout.clone = CmdOutcome.ok okCmd ∧
    okCmd.exit_code = 0 ∧
    (if isTruthy pendingTask.branch_name then envTimeout.checkout_existing
      else envTimeout.create_branch) = CmdOutcome.ok okCmd ∧
    envTimeout.agent.claude_outcome = CmdOutcome.timeout ∧
    (∃ sid t', (execute_task envTimeout [pendingTask] 0 1).ret
        = .ok (.finished "failed" sid) ∧
      findTask (execute_task envTimeout [pendingTask] 0 1).reg 1 = some t' ∧
      t'.status = "failed" ∧
      t'.result = some "Task timed out. Partial result: Task timed out" ∧
      containsStr "Task timed out. Partial result: Task timed out" "timed out") :=
  ⟨by decide, rfl, rfl, rfl, rfl, rfl,
   c5_timeout_resolves_failed envTimeout [pendingTask] 0 1 pendingTask okCmd okCmd
     (by decide) rfl rfl rfl rfl rfl rfl⟩

/-- C6: when the clone command returns a non-zero exit code, the task is
marked failed with a result carrying the clone stderr, the agent runner
is never invoked, no branch step is attempted, and the sandbox is still
destroyed exactly once. -/
theorem c6_clone_failure_stops (env : ExecEnv) (reg : Registry) (t0 tid : Nat)
    (task : Task) (cr : CommandResult) (h : findTask reg tid = some task)
    (hsdk : env.setup.sdk_install.exit_code = 0)
    (hclone : env.clone = CmdOutcome.ok cr) (hcr : ¬ cr.exit_code = 0) :
    (execute_task env reg t0 tid).ret
      = .ok (.failedEarly ("Failed to clone repo: " ++ cr.stderr)) ∧
    containsStr ("Failed to clone repo: " ++ cr.stderr) cr.stderr ∧
    (∃ t', findTask (execute_task env reg t0 tid).reg tid = some t' ∧
      t'.status = "failed" ∧
      t'.result = some ("Failed to clone repo: " ++ cr.stderr)) ∧
    agentCount (execute_task env reg t0 tid).events = 0 ∧
    cmdCount "checkout_existing" (execute_task env reg t0 tid).events = 0 ∧
    cmdCount "create_branch" (execute_task env reg t0 tid).events = 0 ∧
    killCount (execute_task env reg t0 tid).events = 1 := by
  have hidt : task.id = tid := findTask_id h
  subst hidt
  have hid1 : (updatedTask task t0 "running" []).id = task.id :=
    updatedTask_id task t0 "running" []
  have f1 : findTask (replaceTask reg task.id (updatedTask task t0 "running" [])) task.id
      = some (updatedTask task t0 "running" []) := findTask_replaceTask _ h hid1
  have hid2 : (updatedTask (updatedTask task t0 "running" []) (t0 + 1) "running"
      [("sandbox_id", some env.sandbox_id)]).id = task.id := by
    rw [updatedTask_id]
    exact hid1
  have h2 : findTask (runningSt env reg t0 task.id task).reg task.id
      = some (updatedTask (updatedTask task t0 "running" []) (t0 + 1) "running"
          [("sandbox_id", some env.sandbox_id)]) :=
    findTask_replaceTask _ f1 hid2
  rw [execute_task_run env reg t0 task.id task h]
  simp only [postUpdateStage]
  rw [setupM_ok hsdk]
  simp only [bindE]
  rw [hclone, runCmdM_ok]
  simp only [bindE]
  rw [show (cr.exit_code != 0) = true by simpa using hcr]
  simp only [if_true]
  simp only [failTask]
  rw [updateM_ok2 task.id "failed"
    [("result", some ("Failed to clone repo: " ++ cr.stderr))] _ _ h2 rfl]
  simp only [bindE]
  refine ⟨trivial,
    ⟨"Failed to clone repo: ", "", by rw [String.append_empty]⟩,
    ⟨updatedTask
        (updatedTask (updatedTask task t0 "running" []) (t0 + 1) "running"
          [("sandbox_id", some env.sandbox_id)])
        ((runningSt env reg t0 task.id task).clock) "failed"
        [("result", some ("Failed to clone repo: " ++ cr.stderr))],
      ?_, rfl, rfl⟩, ?_, ?_, ?_, ?_⟩
  · exact findTask_replaceTask _ h2 (by simp [updatedTask_id])
  · rcases setup_commands_cases env.setup with hc | hc | hc <;>
      rw [hc] <;>
      simp [agentCount, runningSt, List.countP_append, List.countP_cons, isAgentEv]
  · rcases setup_commands_cases env.setup with hc | hc | hc <;>
      rw [hc] <;>
      simp [cmdCount, runningSt, List.countP_append, List.countP_cons]
  · rcases setup_commands_cases env.setup with hc | hc | hc <;>
      rw [hc] <;>
      simp [cmdCount, runningSt, List.countP_append, List.countP_cons]
  · rcases setup_commands_cases env.setup with hc | hc | hc <;>
      rw [hc] <;>
      simp [killCount, runningSt, List.countP_append, List.countP_cons, isKillEv]

/-- Witness for C6 at a concrete environment and registry. -/
theorem c6_clone_failure_stops_witness :
    findTask [pendingTask] 1 = some pendingTask ∧
    envCloneFail.setup.sdk_install.exit_code = 0 ∧
    envCloneFail.clone
      = CmdOutcome.ok { exit_code := 128, stdout := "", stderr := "repository not found" } ∧
    ¬ ({ exit_code := 128, stdout := "", stderr := "repository not found" }
        : CommandResult).exit_code = 0 ∧
    ((execute_task envCloneFail [pendingTask] 0 1).ret
      = .ok (.failedEarly ("Failed to clone repo: " ++ "repository not found")) ∧
    containsStr ("Failed to clone repo: " ++ "repository not found") "repository not found" ∧
    (∃ t', findTask (execute_task envCloneFail [pendingTask] 0 1).reg 1 = some t' ∧
      t'.status = "failed" ∧
      t'.result = some ("Failed to clone repo: " ++ "repository not found")) ∧
    agentCount (execute_task envCloneFail [pendingTask] 0 1).events = 0 ∧
    cmdCount "checkout_existing" (execute_task envCloneFail [pendingTask] 0 1).events = 0 ∧
    cmdCount "create_branch" (execute_task envCloneFail [pendingTask] 0 1).events = 0 ∧
    killCount (execute_task envCloneFail [pendingTask] 0 1).events = 1) :=
  ⟨by decide, rfl, rfl, by decide,
   c6_clone_failure_stops envCloneFail [pendingTask] 0 1 pendingTask
     { exit_code := 128, stdout := "", stderr := "repository not found" }
     (by decide) rfl rfl (by decide)⟩

end CloudAgent
